import Mathlib

/-!
Verification of the RDAP resolution-and-normalization engine of the
`ducksify/whois` repository (Go).  The Go code of `rdap.go` is shallowly
embedded: Go strings become `List Char`, Go slices become Lean lists, the
Go `map[string]interface{}` catch-all becomes an association list with
update-or-append assignment, and the in-place mutation of the response
struct becomes explicit state passing.  Parts of the repository that are
declared outside the provided sources (the `Whois` resolver, `IsASN`, and
the referral follower) are modelled from the specification and are marked
as such in their doc comments.
-/

namespace Whois

/-- Go strings are modelled as lists of characters. -/
abbrev Str := List Char

/-- Whitespace test used by Go `strings.TrimSpace` (`unicode.IsSpace`),
restricted to the ASCII space characters. -/
def isGoSpace (c : Char) : Bool :=
  c = ' ' || c = '\t' || c = '\n' || c = '\r' || c = '\x0b' || c = '\x0c'

/-- Drop leading whitespace. -/
def trimLeft : Str → Str
  | [] => []
  | c :: cs => if isGoSpace c then trimLeft cs else c :: cs

/-- Drop trailing whitespace. -/
def trimRight (s : Str) : Str :=
  (trimLeft s.reverse).reverse

/-- Go `strings.TrimSpace`. -/
def trimSpace (s : Str) : Str :=
  trimRight (trimLeft s)

/-- Go `strings.Split(s, sep)` for a one-character separator. -/
def splitOnChar (sep : Char) : Str → List Str
  | [] => [[]]
  | c :: cs =>
    if c = sep then [] :: splitOnChar sep cs
    else
      match splitOnChar sep cs with
      | [] => [[c]]
      | x :: xs => (c :: x) :: xs

/-- Go `strings.SplitN(s, sep, 2)` for a one-character separator:
`none` when the separator does not occur (Go returns the one-element
slice `[s]` and the parser skips the line), otherwise the text before
and after the first occurrence. -/
def splitFirst (sep : Char) : Str → Option (Str × Str)
  | [] => none
  | c :: cs =>
    if c = sep then some ([], cs)
    else (splitFirst sep cs).map (fun p => (c :: p.1, p.2))

/-- Go `strings.HasPrefix s pre`. -/
def beginsWith : Str → Str → Bool
  | _, [] => true
  | [], _ :: _ => false
  | c :: cs, p :: ps => c = p && beginsWith cs ps

/-- Go `strings.ToLower` (ASCII). -/
def toLowerCh (s : Str) : Str :=
  s.map Char.toLower

/-- Go `strings.Contains s c` for a one-character substring. -/
def containsChar (c : Char) (s : Str) : Bool :=
  s.any (fun d => d = c)

/-- The Go `map[string]interface{}` catch-all field map, represented
extensionally as an association list. -/
abbrev GoMap := List (Str × Str)

/-- Go map assignment `m[k] = v`: overwrite the binding if the key is
present, append it otherwise. -/
def mapSet (m : GoMap) (k v : Str) : GoMap :=
  match m with
  | [] => [(k, v)]
  | (k', v') :: rest =>
    if k' = k then (k, v) :: rest else (k', v') :: mapSet rest k v

/-- Go map lookup `m[k]`. -/
def mapGet (m : GoMap) (k : Str) : Option Str :=
  match m with
  | [] => none
  | (k', v') :: rest => if k' = k then some v' else mapGet rest k

/-! ## The RDAP data model (`rdap.go`)

Only the fields read or written by the embedded functions
(`convertWhoisToRDAP`, `parseDomainWhois`, `parseIPWhois`,
`parseASNWhois`) are retained; the remaining fields of the Go structs
are never touched by those functions and always keep their zero values. -/

/-- `RDAPNotice` (fields used: Title, Type, Description). -/
structure RDAPNotice where
  title : Str
  type : Str
  description : List Str
deriving DecidableEq, Repr

/-- `RDAPEntity` (fields used: ObjectClassName, Handle, Roles). -/
structure RDAPEntity where
  objectClassName : Str
  handle : Str
  roles : List Str
deriving DecidableEq, Repr

/-- `RDAPEvent` (fields used: EventAction, EventDate). -/
structure RDAPEvent where
  eventAction : Str
  eventDate : Str
deriving DecidableEq, Repr

/-- `RDAPNameserver` (fields used: ObjectClassName, LdhName). -/
structure RDAPNameserver where
  objectClassName : Str
  ldhName : Str
deriving DecidableEq, Repr

/-- `RDAPRemark` (field used: Description). -/
structure RDAPRemark where
  description : List Str
deriving DecidableEq, Repr

/-- `RDAPNetwork` (fields used: ObjectClassName, Country). -/
structure RDAPNetwork where
  objectClassName : Str
  country : Str
deriving DecidableEq, Repr

/-- `RDAPResponse`, restricted to the fields the embedded functions
touch.  The Go pointer field `Network` becomes an `Option`. -/
structure RDAPResponse where
  rdapConformance : List Str
  notices : List RDAPNotice
  startAddress : Str
  endAddress : Str
  ipVersion : Str
  name : Str
  entities : List RDAPEntity
  events : List RDAPEvent
  status : List Str
  objectClassName : Str
  ldhName : Str
  unicodeName : Str
  nameservers : List RDAPNameserver
  network : Option RDAPNetwork
  autnum : Str
  remarks : List RDAPRemark
  rawWhois : Str
  whoisParsed : GoMap
deriving DecidableEq, Repr

/-- The zero value of the Go `RDAPResponse` struct. -/
def emptyRDAPResponse : RDAPResponse :=
  { rdapConformance := []
    notices := []
    startAddress := []
    endAddress := []
    ipVersion := []
    name := []
    entities := []
    events := []
    status := []
    objectClassName := []
    ldhName := []
    unicodeName := []
    nameservers := []
    network := none
    autnum := []
    remarks := []
    rawWhois := []
    whoisParsed := [] }

/-! ## Line scanning shared by the three parsers

All three Go parse functions run the same loop prologue: trim the line,
skip it when it is empty or begins with `%`, split it at the first `:`
(skipping it when there is none), and trim both halves.  `kvOfLine`
captures exactly that prologue; each parser then applies its own switch
to the resulting key/value pair. -/

/-- The loop prologue of `parseDomainWhois` / `parseIPWhois` /
`parseASNWhois`: `none` exactly when the Go loop `continue`s. -/
def kvOfLine (line : Str) : Option (Str × Str) :=
  let t := trimSpace line
  if t = [] then none
  else if beginsWith t ['%'] then none
  else
    match splitFirst ':' t with
    | none => none
    | some (a, b) => some (trimSpace a, trimSpace b)

/-- The switch body of `parseDomainWhois` together with the preceding
unconditional catch-all assignment `response.WhoisParsed[key] = value`. -/
def applyDomainKV (r : RDAPResponse) (key value : Str) : RDAPResponse :=
  let r1 := { r with whoisParsed := mapSet r.whoisParsed key value }
  let lk := toLowerCh key
  if lk = "domain name".data then { r1 with name := value }
  else if lk = "registrar".data then
    { r1 with entities := r1.entities ++
        [{ objectClassName := "entity".data, handle := value,
           roles := ["registrar".data] }] }
  else if lk = "created".data then
    { r1 with events := r1.events ++
        [{ eventAction := "registration".data, eventDate := value }] }
  else if lk = "paid-till".data || lk = "expires".data then
    { r1 with events := r1.events ++
        [{ eventAction := "expiration".data, eventDate := value }] }
  else if lk = "updated".data then
    { r1 with events := r1.events ++
        [{ eventAction := "last changed".data, eventDate := value }] }
  else if lk = "nserver".data then
    { r1 with nameservers := r1.nameservers ++
        [{ objectClassName := "nameserver".data, ldhName := value }] }
  else if lk = "status".data then
    { r1 with status := r1.status ++ [value] }
  else r1

/-- One iteration of the `parseDomainWhois` loop. -/
def processDomainLine (r : RDAPResponse) (line : Str) : RDAPResponse :=
  match kvOfLine line with
  | none => r
  | some (k, v) => applyDomainKV r k v

/-- `parseDomainWhois`: fold the loop body over `strings.Split(whoisData, "\n")`. -/
def parseDomainWhois (r : RDAPResponse) (whoisData : Str) : RDAPResponse :=
  (splitOnChar '\n' whoisData).foldl processDomainLine r

/-- The switch body of `parseIPWhois` together with the preceding
catch-all assignment. -/
def applyIPKV (r : RDAPResponse) (key value : Str) : RDAPResponse :=
  let r1 := { r with whoisParsed := mapSet r.whoisParsed key value }
  let lk := toLowerCh key
  if lk = "netname".data || lk = "network name".data then { r1 with name := value }
  else if lk = "descr".data || lk = "description".data then
    { r1 with remarks := r1.remarks ++ [{ description := [value] }] }
  else if lk = "country".data then
    { r1 with network := some { objectClassName := "ip network".data, country := value } }
  else if lk = "created".data then
    { r1 with events := r1.events ++
        [{ eventAction := "registration".data, eventDate := value }] }
  else if lk = "last-modified".data then
    { r1 with events := r1.events ++
        [{ eventAction := "last changed".data, eventDate := value }] }
  else r1

/-- One iteration of the `parseIPWhois` loop. -/
def processIPLine (r : RDAPResponse) (line : Str) : RDAPResponse :=
  match kvOfLine line with
  | none => r
  | some (k, v) => applyIPKV r k v

/-- `parseIPWhois`. -/
def parseIPWhois (r : RDAPResponse) (whoisData : Str) : RDAPResponse :=
  (splitOnChar '\n' whoisData).foldl processIPLine r

/-- The switch body of `parseASNWhois` together with the preceding
catch-all assignment. -/
def applyASNKV (r : RDAPResponse) (key value : Str) : RDAPResponse :=
  let r1 := { r with whoisParsed := mapSet r.whoisParsed key value }
  let lk := toLowerCh key
  if lk = "as-name".data || lk = "aut-num".data then { r1 with name := value }
  else if lk = "descr".data || lk = "description".data then
    { r1 with remarks := r1.remarks ++ [{ description := [value] }] }
  else if lk = "created".data then
    { r1 with events := r1.events ++
        [{ eventAction := "registration".data, eventDate := value }] }
  else if lk = "last-modified".data then
    { r1 with events := r1.events ++
        [{ eventAction := "last changed".data, eventDate := value }] }
  else r1

/-- One iteration of the `parseASNWhois` loop. -/
def processASNLine (r : RDAPResponse) (line : Str) : RDAPResponse :=
  match kvOfLine line with
  | none => r
  | some (k, v) => applyASNKV r k v

/-- `parseASNWhois`. -/
def parseASNWhois (r : RDAPResponse) (whoisData : Str) : RDAPResponse :=
  (splitOnChar '\n' whoisData).foldl processASNLine r

/-! ## The classifiers (`rdap.go`, helper functions) -/

/-- First alternative of the `isIP` regular expression
`(?:[0-9]{1,3}\.){3}[0-9]{1,3}` (anchored): exactly four groups of one
to three decimal digits separated by dots. -/
def isDottedQuadFormat (q : Str) : Bool :=
  let parts := splitOnChar '.' q
  parts.length = 4 &&
    parts.all (fun p => 1 ≤ p.length && p.length ≤ 3 && p.all Char.isDigit)

/-- Hexadecimal-digit test `[0-9a-fA-F]` of the `isIP` regular expression. -/
def isHexDigitCh (c : Char) : Bool :=
  Char.isDigit c || ('a' ≤ c && c ≤ 'f') || ('A' ≤ c && c ≤ 'F')

/-- Second alternative of the `isIP` regular expression `[0-9a-fA-F:]+`
(anchored): a nonempty string of hexadecimal digits and colons. -/
def isHexColonFormat (q : Str) : Bool :=
  !q.isEmpty && q.all (fun c => isHexDigitCh c || c = ':')

/-- `isIP`: transcription of the Go regular expression
`^(?:[0-9]{1,3}\.){3}[0-9]{1,3}$|^[0-9a-fA-F:]+$` as the disjunction of
its two anchored alternatives. -/
def isIP (query : Str) : Bool :=
  isDottedQuadFormat query || isHexColonFormat query

/-- Modelled from the spec: `IsASN` is declared in this repository
outside the provided sources; per the spec an ASN form is a bare decimal
integer, or the decimal integer prefixed with the case-insensitive
literal marker `AS`. -/
def IsASN (query : Str) : Bool :=
  (!query.isEmpty && query.all Char.isDigit) ||
    (match query with
     | a :: s :: rest =>
       Char.toLower a = 'a' && Char.toLower s = 's' &&
         !rest.isEmpty && rest.all Char.isDigit
     | _ => false)

/-- `isASN` simply delegates to `IsASN`. -/
def isASN (query : Str) : Bool :=
  IsASN query

/-- `isDomain`: contains a dot and is not IP-shaped. -/
def isDomain (query : Str) : Bool :=
  containsChar '.' query && !isIP query

/-- `getIPVersion`: `v6` when the query contains a colon, else `v4`. -/
def getIPVersion (query : Str) : Str :=
  if containsChar ':' query then "v6".data else "v4".data

/-- The terms-of-service notice appended by `convertWhoisToRDAP`. -/
def tosNotice : RDAPNotice :=
  { title := "Terms of Service".data
    type := "result set truncated due to authorization".data
    description := ["This response has been truncated due to authorization.".data] }

/-- `convertWhoisToRDAP`: build the fresh response, dispatch on the
classifiers in source order (domain, then IP, then ASN), parse, append
the standard notice, and return without error.  The Go signature
`(*RDAPResponse, error)` is modelled as `Except`. -/
def convertWhoisToRDAP (query whoisData : Str) : Except Str RDAPResponse :=
  let response : RDAPResponse :=
    { emptyRDAPResponse with
        rdapConformance := ["rdap_level_0".data]
        rawWhois := whoisData
        whoisParsed := [] }
  let response2 :=
    if isDomain query then
      parseDomainWhois
        { response with
            objectClassName := "domain".data
            ldhName := toLowerCh query
            unicodeName := query } whoisData
    else if isIP query then
      parseIPWhois
        { response with
            objectClassName := "ip network".data
            startAddress := query
            endAddress := query
            ipVersion := getIPVersion query } whoisData
    else if isASN query then
      parseASNWhois
        { response with
            objectClassName := "autnum".data
            autnum := query } whoisData
    else response
  Except.ok { response2 with notices := response2.notices ++ [tosNotice] }

/-! ## Statement-side views of the domain normalizer

These definitions restate, per structured collection, which key/value
pairs of the line scan feed the collection.  They are used only to state
order/duplicate/last-seen properties of `parseDomainWhois`. -/

/-- The key/value pairs the line scan accepts, in line order. -/
def kvLines (raw : Str) : List (Str × Str) :=
  (splitOnChar '\n' raw).filterMap kvOfLine

/-- The nameserver entry contributed by one key/value pair. -/
def domainNS (k v : Str) : Option RDAPNameserver :=
  if toLowerCh k = "nserver".data then
    some { objectClassName := "nameserver".data, ldhName := v }
  else none

/-- The event contributed by one key/value pair. -/
def domainEvent (k v : Str) : Option RDAPEvent :=
  if toLowerCh k = "created".data then
    some { eventAction := "registration".data, eventDate := v }
  else if toLowerCh k = "paid-till".data || toLowerCh k = "expires".data then
    some { eventAction := "expiration".data, eventDate := v }
  else if toLowerCh k = "updated".data then
    some { eventAction := "last changed".data, eventDate := v }
  else none

/-- The entity contributed by one key/value pair. -/
def domainEntity (k v : Str) : Option RDAPEntity :=
  if toLowerCh k = "registrar".data then
    some { objectClassName := "entity".data, handle := v, roles := ["registrar".data] }
  else none

/-- The status flag contributed by one key/value pair. -/
def domainStatus (k v : Str) : Option Str :=
  if toLowerCh k = "status".data then some v else none

/-- Accumulate the catch-all map over a list of key/value pairs. -/
def catchAllOf (m : GoMap) (kvs : List (Str × Str)) : GoMap :=
  kvs.foldl (fun acc kv => mapSet acc kv.1 kv.2) m

/-- The dotted-quad check the spec describes: four decimal groups
separated by exactly three dots, each group in the range 0 to 255
(written with at most three digits).  Stated independently of `isIP`
for comparison with it. -/
def strToNat (p : Str) : Nat :=
  p.foldl (fun n c => 10 * n + (c.toNat - '0'.toNat)) 0

/-- Spec-side IPv4 predicate (groups bounded by 255). -/
def isIPv4Spec (q : Str) : Bool :=
  let parts := splitOnChar '.' q
  parts.length = 4 &&
    parts.all (fun p =>
      1 ≤ p.length && p.length ≤ 3 && p.all Char.isDigit &&
        decide (strToNat p ≤ 255))

/-! ## The referral follower and resolver

The `Whois` resolver and its referral follower are declared in this
repository outside the provided sources; they are modelled from the
spec (sections 4.2, 4.4 and 7). -/

/-- Modelled from the spec: a registry endpoint, host plus port. -/
structure ServerAddress where
  host : Str
  port : Str
deriving DecidableEq, Repr

/-- Modelled from the spec: the normalized host+port form used by the
cycle guard (hosts compare case-insensitively). -/
def normalizeAddr (a : ServerAddress) : Str :=
  toLowerCh a.host ++ [':'] ++ a.port

/-- Modelled from the spec: parse a referral value into a server
address, defaulting the port to the registry protocol's well-known
port 43. -/
def parseServerValue (v : Str) : Option ServerAddress :=
  let t := trimSpace v
  if t = [] then none
  else
    match splitFirst ':' t with
    | none => some { host := t, port := "43".data }
    | some (h, p) =>
      if h = [] then none
      else some { host := h, port := if p = [] then "43".data else p }

/-- Modelled from the spec: the small fixed set of referral marker
labels (compared case-insensitively after trimming). -/
def referralMarkers : List Str :=
  ["whois server".data, "registrar whois server".data,
   "refer".data, "referralserver".data]

/-- Modelled from the spec: scan a response for the first referral hint
line; later referral lines are ignored. -/
def findReferral (resp : Str) : Option ServerAddress :=
  (splitOnChar '\n' resp).findSome? (fun line =>
    match splitFirst ':' line with
    | none => none
    | some (k, v) =>
      if toLowerCh (trimSpace k) ∈ referralMarkers then parseServerValue v
      else none)

/-- Modelled from the spec (4.4): the referral-following loop.  `net`
is the opaque transport collaborator, `hint` the referral scanner,
`chain` the hops queried so far.  The spec's upward hop counter bounded
by `maxHops` is rendered as the remaining-hop count `fuel`
(`fuel = maxHops - hops`); the loop stops when the response holds no
hint, when the referred address is already in the chain (the cycle
guard, which also catches self-referrals), or when the hop budget is
exhausted. -/
def resolveLoop (net : ServerAddress → Str) (hint : Str → Option ServerAddress) :
    Nat → ServerAddress → List (ServerAddress × Str) → List (ServerAddress × Str)
  | 0, cur, chain => chain ++ [(cur, net cur)]
  | fuel + 1, cur, chain =>
    let resp := net cur
    let chain2 := chain ++ [(cur, resp)]
    match hint resp with
    | none => chain2
    | some next =>
      if chain2.any (fun p => normalizeAddr p.1 = normalizeAddr next) then chain2
      else resolveLoop net hint fuel next chain2

/-- Modelled from the spec: run a resolution from the initial server
with hop count 0 and an empty chain; the result is the referral chain,
one entry per transport query, in query order. -/
def resolve (net : ServerAddress → Str) (hint : Str → Option ServerAddress)
    (maxHops : Nat) (start : ServerAddress) : List (ServerAddress × Str) :=
  resolveLoop net hint maxHops start []

/-- The query kinds of the spec's classifier.  The source keeps a
single IP form (`isIP` covers both versions), so IPv4/IPv6 are one
constructor here. -/
inductive QueryKind where
  | Domain : QueryKind
  | IP : QueryKind
  | ASN : QueryKind
  | Unknown : QueryKind
deriving DecidableEq, Repr

/-- The classifier, in the dispatch order of `convertWhoisToRDAP`
(domain, then IP, then ASN). -/
def classify (query : Str) : QueryKind :=
  if isDomain query then QueryKind.Domain
  else if isIP query then QueryKind.IP
  else if isASN query then QueryKind.ASN
  else QueryKind.Unknown

/-- The pre-flight error kinds of the spec (section 7). -/
inductive WhoisError where
  | UnclassifiedInput : WhoisError
  | NoServer : WhoisError
deriving DecidableEq, Repr

/-- Modelled from the spec: the `Whois` resolver (declared outside the
provided sources).  It classifies first and fails fast with
`UnclassifiedInput` on `Unknown` before any transport activity, looks
up the initial server in the directory `dir` (abstracted, its table
contents are data), and otherwise runs the referral follower.  The
second component of the result lists the transport queries performed. -/
def specWhois (net : ServerAddress → Str) (dir : QueryKind → Str → Option ServerAddress)
    (maxHops : Nat) (query : Str) :
    Except WhoisError Str × List (ServerAddress × Str) :=
  match classify query with
  | QueryKind.Unknown => (Except.error WhoisError.UnclassifiedInput, [])
  | k =>
    match dir k query with
    | none => (Except.error WhoisError.NoServer, [])
    | some s =>
      let chain := resolve net findReferral maxHops s
      (Except.ok (match chain.getLast? with | some p => p.2 | none => []), chain)

/-- `QueryRDAP` (src): query WHOIS first, wrapping a failure as
`failed to query WHOIS: …`, then convert.  The underlying `Whois` call
is the spec-modelled resolver above; only the fixed prefix of the Go
wrapped error message is kept. -/
def QueryRDAP (net : ServerAddress → Str) (dir : QueryKind → Str → Option ServerAddress)
    (maxHops : Nat) (query : Str) :
    Except Str RDAPResponse × List (ServerAddress × Str) :=
  match specWhois net dir maxHops query with
  | (Except.error _, qs) => (Except.error "failed to query WHOIS".data, qs)
  | (Except.ok w, qs) =>
    match convertWhoisToRDAP query w with
    | Except.error _ => (Except.error "failed to convert WHOIS to RDAP".data, qs)
    | Except.ok r => (Except.ok r, qs)

/-- Terminal response text used by the concrete domain scenario: the
four lines of the `egger.ru` example. -/
def eggerRawWhois : Str :=
  ("Domain Name: EGGER.RU\nRegistrar: RU-CENTER-RU\nCreated: 2001-02-19\nnserver: ns1.dns.millenniumarts.net.").data

end Whois

deriving instance DecidableEq for Except

namespace Whois

/-! ## Helper lemmas about the catch-all map -/

/-- Unfolding lemma for `mapGet` on a nonempty map. -/
theorem mapGet_cons (k' v' : Str) (rest : GoMap) (k : Str) :
    mapGet ((k', v') :: rest) k = if k' = k then some v' else mapGet rest k := rfl

/-- Unfolding lemma for `mapSet` on a nonempty map. -/
theorem mapSet_cons (k' v' : Str) (rest : GoMap) (a b : Str) :
    mapSet ((k', v') :: rest) a b =
      if k' = a then (a, b) :: rest else (k', v') :: mapSet rest a b := rfl

/-- Reading a map after an assignment. -/
theorem mapGet_mapSet (m : GoMap) (a b k : Str) :
    mapGet (mapSet m a b) k = if a = k then some b else mapGet m k := by
  induction m with
  | nil => simp [mapSet, mapGet]
  | cons p rest ih =>
    obtain ⟨k', v'⟩ := p
    rw [mapSet_cons]
    by_cases h1 : k' = a
    · rw [if_pos h1, mapGet_cons, mapGet_cons]
      subst h1
      split_ifs <;> simp_all
    · rw [if_neg h1, mapGet_cons, mapGet_cons, ih]
      split_ifs <;> simp_all

/-! ## Helper lemmas about one switch application of the domain parser -/

/-- Effect of one key/value pair on the nameserver collection. -/
theorem applyDomainKV_nameservers (r : RDAPResponse) (k v : Str) :
    (applyDomainKV r k v).nameservers = r.nameservers ++ (domainNS k v).toList := by
  simp only [applyDomainKV, domainNS]
  split_ifs <;> simp_all

/-- Effect of one key/value pair on the event collection. -/
theorem applyDomainKV_events (r : RDAPResponse) (k v : Str) :
    (applyDomainKV r k v).events = r.events ++ (domainEvent k v).toList := by
  simp only [applyDomainKV, domainEvent]
  split_ifs <;> simp_all

/-- Effect of one key/value pair on the entity collection. -/
theorem applyDomainKV_entities (r : RDAPResponse) (k v : Str) :
    (applyDomainKV r k v).entities = r.entities ++ (domainEntity k v).toList := by
  simp only [applyDomainKV, domainEntity]
  split_ifs <;> simp_all

/-- Effect of one key/value pair on the status collection. -/
theorem applyDomainKV_status (r : RDAPResponse) (k v : Str) :
    (applyDomainKV r k v).status = r.status ++ (domainStatus k v).toList := by
  simp only [applyDomainKV, domainStatus]
  split_ifs <;> simp_all

/-- Effect of one key/value pair on the catch-all map. -/
theorem applyDomainKV_whoisParsed (r : RDAPResponse) (k v : Str) :
    (applyDomainKV r k v).whoisParsed = mapSet r.whoisParsed k v := by
  simp only [applyDomainKV]
  split_ifs <;> rfl

/-- The switch never touches the envelope frame fields. -/
theorem applyDomainKV_frame (r : RDAPResponse) (k v : Str) :
    (applyDomainKV r k v).rdapConformance = r.rdapConformance ∧
    (applyDomainKV r k v).notices = r.notices ∧
    (applyDomainKV r k v).rawWhois = r.rawWhois ∧
    (applyDomainKV r k v).objectClassName = r.objectClassName := by
  simp only [applyDomainKV]
  split_ifs <;> simp_all

/-- The IP switch never touches the envelope frame fields. -/
theorem applyIPKV_frame (r : RDAPResponse) (k v : Str) :
    (applyIPKV r k v).rdapConformance = r.rdapConformance ∧
    (applyIPKV r k v).notices = r.notices ∧
    (applyIPKV r k v).rawWhois = r.rawWhois ∧
    (applyIPKV r k v).objectClassName = r.objectClassName := by
  simp only [applyIPKV]
  split_ifs <;> simp_all

/-- The ASN switch never touches the envelope frame fields. -/
theorem applyASNKV_frame (r : RDAPResponse) (k v : Str) :
    (applyASNKV r k v).rdapConformance = r.rdapConformance ∧
    (applyASNKV r k v).notices = r.notices ∧
    (applyASNKV r k v).rawWhois = r.rawWhois ∧
    (applyASNKV r k v).objectClassName = r.objectClassName := by
  simp only [applyASNKV]
  split_ifs <;> simp_all

/-! ## Fold lemmas: the whole line scan against its per-collection view -/

/-- Nameservers collected by a domain line scan, in line order. -/
theorem foldl_domain_nameservers (ls : List Str) : ∀ r : RDAPResponse,
    (ls.foldl processDomainLine r).nameservers =
      r.nameservers ++ (ls.filterMap kvOfLine).filterMap (fun kv => domainNS kv.1 kv.2) := by
  induction ls with
  | nil => intro r; simp
  | cons l ls ih =>
    intro r
    simp only [List.foldl_cons, List.filterMap_cons]
    cases h : kvOfLine l with
    | none => simp [processDomainLine, h, ih]
    | some kv =>
      obtain ⟨k, v⟩ := kv
      simp only [processDomainLine, h, ih, applyDomainKV_nameservers]
      cases hd : domainNS k v <;> simp [hd, List.filterMap_cons]

/-- Events collected by a domain line scan, in line order. -/
theorem foldl_domain_events (ls : List Str) : ∀ r : RDAPResponse,
    (ls.foldl processDomainLine r).events =
      r.events ++ (ls.filterMap kvOfLine).filterMap (fun kv => domainEvent kv.1 kv.2) := by
  induction ls with
  | nil => intro r; simp
  | cons l ls ih =>
    intro r
    simp only [List.foldl_cons, List.filterMap_cons]
    cases h : kvOfLine l with
    | none => simp [processDomainLine, h, ih]
    | some kv =>
      obtain ⟨k, v⟩ := kv
      simp only [processDomainLine, h, ih, applyDomainKV_events]
      cases hd : domainEvent k v <;> simp [hd, List.filterMap_cons]

/-- Entities collected by a domain line scan, in line order. -/
theorem foldl_domain_entities (ls : List Str) : ∀ r : RDAPResponse,
    (ls.foldl processDomainLine r).entities =
      r.entities ++ (ls.filterMap kvOfLine).filterMap (fun kv => domainEntity kv.1 kv.2) := by
  induction ls with
  | nil => intro r; simp
  | cons l ls ih =>
    intro r
    simp only [List.foldl_cons, List.filterMap_cons]
    cases h : kvOfLine l with
    | none => simp [processDomainLine, h, ih]
    | some kv =>
      obtain ⟨k, v⟩ := kv
      simp only [processDomainLine, h, ih, applyDomainKV_entities]
      cases hd : domainEntity k v <;> simp [hd, List.filterMap_cons]

/-- Status flags collected by a domain line scan, in line order. -/
theorem foldl_domain_status (ls : List Str) : ∀ r : RDAPResponse,
    (ls.foldl processDomainLine r).status =
      r.status ++ (ls.filterMap kvOfLine).filterMap (fun kv => domainStatus kv.1 kv.2) := by
  induction ls with
  | nil => intro r; simp
  | cons l ls ih =>
    intro r
    simp only [List.foldl_cons, List.filterMap_cons]
    cases h : kvOfLine l with
    | none => simp [processDomainLine, h, ih]
    | some kv =>
      obtain ⟨k, v⟩ := kv
      simp only [processDomainLine, h, ih, applyDomainKV_status]
      cases hd : domainStatus k v <;> simp [hd, List.filterMap_cons]

/-- The catch-all map produced by a domain line scan. -/
theorem foldl_domain_whoisParsed (ls : List Str) : ∀ r : RDAPResponse,
    (ls.foldl processDomainLine r).whoisParsed =
      catchAllOf r.whoisParsed (ls.filterMap kvOfLine) := by
  induction ls with
  | nil => intro r; simp [catchAllOf]
  | cons l ls ih =>
    intro r
    simp only [List.foldl_cons, List.filterMap_cons]
    cases h : kvOfLine l with
    | none => simp [processDomainLine, h, ih]
    | some kv =>
      obtain ⟨k, v⟩ := kv
      simp only [processDomainLine, h, ih, applyDomainKV_whoisParsed]
      simp [catchAllOf]

/-- A domain line scan never touches the envelope frame fields. -/
theorem foldl_domain_frame (ls : List Str) : ∀ r : RDAPResponse,
    (ls.foldl processDomainLine r).rdapConformance = r.rdapConformance ∧
    (ls.foldl processDomainLine r).notices = r.notices ∧
    (ls.foldl processDomainLine r).rawWhois = r.rawWhois ∧
    (ls.foldl processDomainLine r).objectClassName = r.objectClassName := by
  induction ls with
  | nil => intro r; simp
  | cons l ls ih =>
    intro r
    simp only [List.foldl_cons]
    cases h : kvOfLine l with
    | none => simp [processDomainLine, h, ih]
    | some kv =>
      obtain ⟨k, v⟩ := kv
      simp only [processDomainLine, h]
      obtain ⟨h1, h2, h3, h4⟩ := ih (applyDomainKV r k v)
      obtain ⟨g1, g2, g3, g4⟩ := applyDomainKV_frame r k v
      exact ⟨h1.trans g1, h2.trans g2, h3.trans g3, h4.trans g4⟩

/-- An IP line scan never touches the envelope frame fields. -/
theorem foldl_ip_frame (ls : List Str) : ∀ r : RDAPResponse,
    (ls.foldl processIPLine r).rdapConformance = r.rdapConformance ∧
    (ls.foldl processIPLine r).notices = r.notices ∧
    (ls.foldl processIPLine r).rawWhois = r.rawWhois ∧
    (ls.foldl processIPLine r).objectClassName = r.objectClassName := by
  induction ls with
  | nil => intro r; simp
  | cons l ls ih =>
    intro r
    simp only [List.foldl_cons]
    cases h : kvOfLine l with
    | none => simp [processIPLine, h, ih]
    | some kv =>
      obtain ⟨k, v⟩ := kv
      simp only [processIPLine, h]
      obtain ⟨h1, h2, h3, h4⟩ := ih (applyIPKV r k v)
      obtain ⟨g1, g2, g3, g4⟩ := applyIPKV_frame r k v
      exact ⟨h1.trans g1, h2.trans g2, h3.trans g3, h4.trans g4⟩

/-- An ASN line scan never touches the envelope frame fields. -/
theorem foldl_asn_frame (ls : List Str) : ∀ r : RDAPResponse,
    (ls.foldl processASNLine r).rdapConformance = r.rdapConformance ∧
    (ls.foldl processASNLine r).notices = r.notices ∧
    (ls.foldl processASNLine r).rawWhois = r.rawWhois ∧
    (ls.foldl processASNLine r).objectClassName = r.objectClassName := by
  induction ls with
  | nil => intro r; simp
  | cons l ls ih =>
    intro r
    simp only [List.foldl_cons]
    cases h : kvOfLine l with
    | none => simp [processASNLine, h, ih]
    | some kv =>
      obtain ⟨k, v⟩ := kv
      simp only [processASNLine, h]
      obtain ⟨h1, h2, h3, h4⟩ := ih (applyASNKV r k v)
      obtain ⟨g1, g2, g3, g4⟩ := applyASNKV_frame r k v
      exact ⟨h1.trans g1, h2.trans g2, h3.trans g3, h4.trans g4⟩

/-- Looking up a label after accumulating the catch-all map yields the
value of the last pair bearing that label, falling back to the initial
map. -/
theorem catchAll_get (kvs : List (Str × Str)) : ∀ (m : GoMap) (k : Str),
    mapGet (catchAllOf m kvs) k =
      match kvs.reverse.find? (fun kv => decide (kv.1 = k)) with
      | some kv => some kv.2
      | none => mapGet m k := by
  induction kvs with
  | nil => intro m k; simp [catchAllOf]
  | cons kv rest ih =>
    intro m k
    simp only [catchAllOf, List.foldl_cons]
    have step : (rest.foldl (fun acc p => mapSet acc p.1 p.2) (mapSet m kv.1 kv.2)) =
        catchAllOf (mapSet m kv.1 kv.2) rest := rfl
    rw [step, ih]
    simp only [List.reverse_cons, List.find?_append]
    cases hf : rest.reverse.find? (fun p => decide (p.1 = k)) with
    | some x => simp [hf]
    | none =>
      simp only [hf, Option.or]
      by_cases hk : kv.1 = k
      · simp [List.find?, hk, mapGet_mapSet]
      · simp [List.find?, hk, mapGet_mapSet]

/-- `parseDomainWhois` restated through the catch-all accumulator. -/
theorem parseDomainWhois_whoisParsed (r : RDAPResponse) (raw : Str) :
    (parseDomainWhois r raw).whoisParsed = catchAllOf r.whoisParsed (kvLines raw) :=
  foldl_domain_whoisParsed _ r

/-! ## Helper lemmas about the referral follower -/

/-- Appending a fresh element preserves `Nodup`. -/
theorem nodup_snoc {α : Type} (l : List α) (a : α) (h : l.Nodup) (ha : a ∉ l) :
    (l ++ [a]).Nodup := by
  simp [List.nodup_append, h, ha]

/-- The chain grows by at most one entry per remaining hop. -/
theorem resolveLoop_length (net : ServerAddress → Str) (hint : Str → Option ServerAddress) :
    ∀ (fuel : Nat) (cur : ServerAddress) (chain : List (ServerAddress × Str)),
    (resolveLoop net hint fuel cur chain).length ≤ chain.length + 1 + fuel := by
  intro fuel
  induction fuel with
  | zero =>
    intro cur chain
    simp only [resolveLoop, List.length_append, List.length_singleton]
    omega
  | succ fuel ih =>
    intro cur chain
    simp only [resolveLoop]
    split
    · simp only [List.length_append, List.length_singleton]
      omega
    · rename_i next _
      split_ifs with h
      · simp only [List.length_append, List.length_singleton]
        omega
      · refine le_trans (ih next (chain ++ [(cur, net cur)])) ?_
        simp only [List.length_append, List.length_singleton]
        omega

/-- The cycle guard keeps the normalized addresses of the chain distinct. -/
theorem resolveLoop_nodup (net : ServerAddress → Str) (hint : Str → Option ServerAddress) :
    ∀ (fuel : Nat) (cur : ServerAddress) (chain : List (ServerAddress × Str)),
    (chain.map (fun p => normalizeAddr p.1)).Nodup →
    (∀ p ∈ chain, normalizeAddr p.1 ≠ normalizeAddr cur) →
    ((resolveLoop net hint fuel cur chain).map (fun p => normalizeAddr p.1)).Nodup := by
  intro fuel
  induction fuel with
  | zero =>
    intro cur chain h1 h2
    have hchain2 : ((chain ++ [(cur, net cur)]).map (fun p => normalizeAddr p.1)).Nodup := by
      rw [List.map_append]
      refine nodup_snoc _ _ h1 ?_
      simp only [List.mem_map]
      rintro ⟨p, hp, hpcur⟩
      exact h2 p hp hpcur
    simp only [resolveLoop]
    exact hchain2
  | succ fuel ih =>
    intro cur chain h1 h2
    have hchain2 : ((chain ++ [(cur, net cur)]).map (fun p => normalizeAddr p.1)).Nodup := by
      rw [List.map_append]
      refine nodup_snoc _ _ h1 ?_
      simp only [List.mem_map]
      rintro ⟨p, hp, hpcur⟩
      exact h2 p hp hpcur
    simp only [resolveLoop]
    split
    · exact hchain2
    · rename_i next _
      split_ifs with h
      · exact hchain2
      · refine ih next (chain ++ [(cur, net cur)]) hchain2 ?_
        intro p hp heq
        exact h (List.any_eq_true.mpr ⟨p, hp, by simp [heq]⟩)

end Whois

namespace Whois

/-! ## The claims -/

/-- Claim C1.  The claim states that the inputs `15169` and `AS15169`
both classify as ASN and both yield an `autnum` envelope with the same
AS identifier form.  This theorem evaluates the code at those inputs:
`IsASN` accepts both forms, but the hex/colon alternative of the `isIP`
regular expression also matches the bare digit string `15169`, and
`convertWhoisToRDAP` checks `isIP` before `isASN`, so `15169` produces
object class `ip network` with an empty `autnum` while `AS15169`
produces object class `autnum` with `autnum = AS15169`. -/
theorem c1_bare_asn_classified_as_ip :
    IsASN "15169".data = true ∧ IsASN "AS15169".data = true ∧
    isIP "15169".data = true ∧
    (convertWhoisToRDAP "15169".data "".data).map
      (fun r => (r.objectClassName, r.autnum)) =
      Except.ok ("ip network".data, ([] : Str)) ∧
    (convertWhoisToRDAP "AS15169".data "".data).map
      (fun r => (r.objectClassName, r.autnum)) =
      Except.ok ("autnum".data, "AS15169".data) := by
  decide

/-- Claim C2.  For every input that classifies as `Unknown`, the
resolver fails fast: the spec-modelled `Whois` pipeline reports
`UnclassifiedInput`, the `QueryRDAP` wrapper surfaces the wrapped
failure, and the list of transport queries performed is empty. -/
theorem c2_unknown_fails_fast (net : ServerAddress → Str)
    (dir : QueryKind → Str → Option ServerAddress) (maxHops : Nat) (q : Str)
    (h : classify q = QueryKind.Unknown) :
    specWhois net dir maxHops q = (Except.error WhoisError.UnclassifiedInput, []) ∧
    (QueryRDAP net dir maxHops q).1 = Except.error "failed to query WHOIS".data ∧
    (QueryRDAP net dir maxHops q).2 = [] := by
  have h1 : specWhois net dir maxHops q = (Except.error WhoisError.UnclassifiedInput, []) := by
    simp [specWhois, h]
  refine ⟨h1, ?_, ?_⟩ <;> simp [QueryRDAP, h1]

/-- Witness for claim C2 at the empty input, which classifies as
`Unknown`. -/
theorem c2_unknown_fails_fast_witness :
    specWhois (fun _ => ([] : Str)) (fun _ _ => none) 10 "".data =
      (Except.error WhoisError.UnclassifiedInput, []) ∧
    (QueryRDAP (fun _ => ([] : Str)) (fun _ _ => none) 10 "".data).1 =
      Except.error "failed to query WHOIS".data ∧
    (QueryRDAP (fun _ => ([] : Str)) (fun _ _ => none) 10 "".data).2 = [] :=
  c2_unknown_fails_fast (fun _ => ([] : Str)) (fun _ _ => none) 10 "".data (by decide)

/-- Claim C3, counterexample.  The claim states that IP classification
requires every dotted-quad group to lie in 0–255; on the code the input
`999.999.999.999` is classified as IP although it fails the 0–255
dotted-quad check. -/
theorem c3_group_range_counterexample :
    isIP "999.999.999.999".data = true ∧ isIPv4Spec "999.999.999.999".data = false := by
  decide

/-- Claim C3, amended.  Every input passing the 0–255 dotted-quad check
is classified as IP, but the classifier itself only requires four
groups of one to three decimal digits (and alternatively accepts any
nonempty string of hexadecimal digits and colons), with no range
check on the groups. -/
theorem c3_ipv4_amended : ∀ q : Str, isIPv4Spec q = true → isIP q = true := by
  intro q h
  simp only [isIPv4Spec, Bool.and_eq_true, List.all_eq_true, decide_eq_true_eq] at h
  obtain ⟨h4, hall⟩ := h
  simp only [isIP, isDottedQuadFormat, Bool.or_eq_true, Bool.and_eq_true,
    List.all_eq_true, decide_eq_true_eq]
  left
  refine ⟨h4, ?_⟩
  intro p hp
  obtain ⟨⟨⟨ha, hb⟩, hc⟩, _⟩ := hall p hp
  exact ⟨⟨ha, hb⟩, hc⟩

/-- Witness for amended claim C3 at `8.8.8.8`. -/
theorem c3_ipv4_amended_witness : isIP "8.8.8.8".data = true :=
  c3_ipv4_amended "8.8.8.8".data (by decide)

/-- Claim C4.  For input `egger.ru` with the given terminal response,
the envelope has object class `domain`, the catch-all map holds
`EGGER.RU` under the label `Domain Name`, and there are exactly one
registrar entity `RU-CENTER-RU` with role `registrar`, one registration
event dated `2001-02-19`, and one nameserver entry
`ns1.dns.millenniumarts.net.`. -/
theorem c4_domain_scenario :
    isDomain "egger.ru".data = true ∧
    (convertWhoisToRDAP "egger.ru".data eggerRawWhois).map
      (fun r => r.objectClassName) = Except.ok "domain".data ∧
    (convertWhoisToRDAP "egger.ru".data eggerRawWhois).map
      (fun r => mapGet r.whoisParsed "Domain Name".data) =
      Except.ok (some "EGGER.RU".data) ∧
    (convertWhoisToRDAP "egger.ru".data eggerRawWhois).map
      (fun r => r.entities) =
      Except.ok [{ objectClassName := "entity".data, handle := "RU-CENTER-RU".data,
                   roles := ["registrar".data] }] ∧
    (convertWhoisToRDAP "egger.ru".data eggerRawWhois).map
      (fun r => r.events) =
      Except.ok [{ eventAction := "registration".data, eventDate := "2001-02-19".data }] ∧
    (convertWhoisToRDAP "egger.ru".data eggerRawWhois).map
      (fun r => r.nameservers) =
      Except.ok [{ objectClassName := "nameserver".data,
                   ldhName := "ns1.dns.millenniumarts.net.".data }] := by
  decide

/-- Claim C5.  The normalizer works line by line: a line that is blank
after trimming, or begins with the `%` comment marker, or holds no `:`
separator contributes nothing; any other line is split at the first `:`
and the switch is applied to the whitespace-trimmed label and value. -/
theorem c5_line_processing : ∀ (r : RDAPResponse) (line : Str),
    (trimSpace line = [] → processDomainLine r line = r) ∧
    (beginsWith (trimSpace line) ['%'] = true → processDomainLine r line = r) ∧
    (splitFirst ':' (trimSpace line) = none → processDomainLine r line = r) ∧
    (∀ a b, trimSpace line ≠ [] → beginsWith (trimSpace line) ['%'] = false →
      splitFirst ':' (trimSpace line) = some (a, b) →
      processDomainLine r line = applyDomainKV r (trimSpace a) (trimSpace b)) := by
  intro r line
  refine ⟨?_, ?_, ?_, ?_⟩
  · intro h
    simp [processDomainLine, kvOfLine, h]
  · intro h
    by_cases ht : trimSpace line = [] <;> simp [processDomainLine, kvOfLine, ht, h]
  · intro h
    by_cases ht : trimSpace line = []
    · simp [processDomainLine, kvOfLine, ht]
    · by_cases hp : beginsWith (trimSpace line) ['%'] = true
      · simp [processDomainLine, kvOfLine, ht, hp]
      · simp [processDomainLine, kvOfLine, ht, hp, h]
  · intro a b ht hp hs
    simp [processDomainLine, kvOfLine, ht, hp, hs]

/-- Witness for claim C5: a blank line, a comment line, a line without
a separator, and a key/value line. -/
theorem c5_line_processing_witness :
    processDomainLine emptyRDAPResponse "   ".data = emptyRDAPResponse ∧
    processDomainLine emptyRDAPResponse "% note".data = emptyRDAPResponse ∧
    processDomainLine emptyRDAPResponse "no separator here".data = emptyRDAPResponse ∧
    processDomainLine emptyRDAPResponse " a : b ".data =
      applyDomainKV emptyRDAPResponse (trimSpace "a ".data) (trimSpace " b".data) :=
  ⟨(c5_line_processing emptyRDAPResponse "   ".data).1 (by decide),
   (c5_line_processing emptyRDAPResponse "% note".data).2.1 (by decide),
   (c5_line_processing emptyRDAPResponse "no separator here".data).2.2.1 (by decide),
   (c5_line_processing emptyRDAPResponse " a : b ".data).2.2.2 "a ".data " b".data
     (by decide) (by decide) (by decide)⟩

/-- Claim C6.  The structured collections of the normalized record
(nameservers, events, entities, status flags) list their entries in
first-seen line order, keeping duplicates, while the catch-all map
holds for each label the value of the last accepted line bearing that
label (falling back to the incoming map for absent labels). -/
theorem c6_collections_and_catchall : ∀ (r : RDAPResponse) (raw : Str),
    (parseDomainWhois r raw).nameservers =
      r.nameservers ++ (kvLines raw).filterMap (fun kv => domainNS kv.1 kv.2) ∧
    (parseDomainWhois r raw).events =
      r.events ++ (kvLines raw).filterMap (fun kv => domainEvent kv.1 kv.2) ∧
    (parseDomainWhois r raw).entities =
      r.entities ++ (kvLines raw).filterMap (fun kv => domainEntity kv.1 kv.2) ∧
    (parseDomainWhois r raw).status =
      r.status ++ (kvLines raw).filterMap (fun kv => domainStatus kv.1 kv.2) ∧
    ∀ k, mapGet (parseDomainWhois r raw).whoisParsed k =
      match (kvLines raw).reverse.find? (fun kv => decide (kv.1 = k)) with
      | some kv => some kv.2
      | none => mapGet r.whoisParsed k := by
  intro r raw
  refine ⟨foldl_domain_nameservers _ r, foldl_domain_events _ r,
    foldl_domain_entities _ r, foldl_domain_status _ r, ?_⟩
  intro k
  rw [parseDomainWhois_whoisParsed]
  exact catchAll_get _ _ _

/-- The conversion always succeeds and always produces the fixed frame:
the payload under the single `Except.ok`, its conformance list, its
empty pre-notice list, and the raw text carried through unchanged. -/
theorem convert_frame (q w : Str) :
    ∃ r2 : RDAPResponse,
      convertWhoisToRDAP q w = Except.ok { r2 with notices := r2.notices ++ [tosNotice] } ∧
      r2.rdapConformance = ["rdap_level_0".data] ∧ r2.notices = [] ∧ r2.rawWhois = w := by
  simp only [convertWhoisToRDAP]
  split_ifs with h1 h2 h3
  · exact ⟨_, rfl, (foldl_domain_frame _ _).1, (foldl_domain_frame _ _).2.1,
      (foldl_domain_frame _ _).2.2.1⟩
  · exact ⟨_, rfl, (foldl_ip_frame _ _).1, (foldl_ip_frame _ _).2.1,
      (foldl_ip_frame _ _).2.2.1⟩
  · exact ⟨_, rfl, (foldl_asn_frame _ _).1, (foldl_asn_frame _ _).2.1,
      (foldl_asn_frame _ _).2.2.1⟩
  · exact ⟨_, rfl, rfl, rfl, rfl⟩

/-- Claim C7.  For every query and raw text the conversion returns no
error, and the result always carries the conformance marker
`rdap_level_0`, exactly one terms-of-service notice, and the raw text
copied unmodified. -/
theorem c7_conversion_total : ∀ q w : Str,
    (∃ r, convertWhoisToRDAP q w = Except.ok r) ∧
    (convertWhoisToRDAP q w).map (fun r => r.rdapConformance) =
      Except.ok ["rdap_level_0".data] ∧
    (convertWhoisToRDAP q w).map (fun r => r.notices) = Except.ok [tosNotice] ∧
    (convertWhoisToRDAP q w).map (fun r => r.rawWhois) = Except.ok w := by
  intro q w
  obtain ⟨r2, heq, hc, hn, hw⟩ := convert_frame q w
  refine ⟨⟨_, heq⟩, ?_, ?_, ?_⟩ <;> simp [heq, Except.map, hc, hn, hw]

/-- Claim C8.  The conversion is deterministic on the catch-all map
(two runs on the same inputs agree), and the domain line scan carries
no hidden state: its catch-all result depends only on the incoming
catch-all map and the raw text, not on the other response fields. -/
theorem c8_catchall_deterministic : ∀ (q w : Str),
    (convertWhoisToRDAP q w).map (fun r => r.whoisParsed) =
      (convertWhoisToRDAP q w).map (fun r => r.whoisParsed) ∧
    (∀ r r' : RDAPResponse, r.whoisParsed = r'.whoisParsed →
      (parseDomainWhois r w).whoisParsed = (parseDomainWhois r' w).whoisParsed) := by
  intro q w
  refine ⟨rfl, ?_⟩
  intro r r' h
  rw [parseDomainWhois_whoisParsed, parseDomainWhois_whoisParsed, h]

/-- Witness for claim C8: two responses differing outside the
catch-all map give the same catch-all result. -/
theorem c8_catchall_deterministic_witness :
    (parseDomainWhois emptyRDAPResponse "a: b".data).whoisParsed =
      (parseDomainWhois { emptyRDAPResponse with name := "x".data } "a: b".data).whoisParsed :=
  (c8_catchall_deterministic "q".data "a: b".data).2 emptyRDAPResponse
    { emptyRDAPResponse with name := "x".data } rfl

/-- Claim C9.  In every resolution the referral follower never queries
the same normalized host+port twice (the chain's normalized addresses
are distinct), never performs more than `maxHops` hops (at most
`maxHops + 1` queries), and a referral pointing back at the server just
queried terminates the resolution immediately after the first query. -/
theorem c9_referral_invariants (net : ServerAddress → Str)
    (hint : Str → Option ServerAddress) (maxHops : Nat) (s : ServerAddress) :
    ((resolve net hint maxHops s).map (fun p => normalizeAddr p.1)).Nodup ∧
    (resolve net hint maxHops s).length ≤ maxHops + 1 ∧
    (∀ s', hint (net s) = some s' → normalizeAddr s' = normalizeAddr s →
      resolve net hint maxHops s = [(s, net s)]) := by
  refine ⟨?_, ?_, ?_⟩
  · exact resolveLoop_nodup net hint maxHops s [] (by simp) (by simp)
  · have h := resolveLoop_length net hint maxHops s []
    simp only [List.length_nil, Nat.zero_add] at h
    simpa [resolve, Nat.add_comm] using h
  · intro s' hh he
    cases maxHops with
    | zero => simp [resolve, resolveLoop]
    | succ n =>
      simp only [resolve, resolveLoop, hh, List.nil_append]
      rw [if_pos]
      simp [he]

/-- Witness for claim C9: a transport that always refers a server to
itself stops after one query. -/
theorem c9_referral_invariants_witness :
    resolve (fun _ => "x".data) (fun _ => some { host := "h".data, port := "43".data }) 5
      { host := "h".data, port := "43".data } =
      [({ host := "h".data, port := "43".data }, "x".data)] :=
  (c9_referral_invariants (fun _ => "x".data)
    (fun _ => some { host := "h".data, port := "43".data }) 5
    { host := "h".data, port := "43".data }).2.2
    { host := "h".data, port := "43".data } rfl rfl

/-- Claim C10.  When the domain, IP and ASN classifiers all reject the
query, the conversion still succeeds with an empty object-class
discriminator and an empty catch-all map, while the conformance list,
the single notice and the raw text are still attached. -/
theorem c10_unknown_kind_envelope : ∀ q w : Str,
    isDomain q = false → isIP q = false → isASN q = false →
    (convertWhoisToRDAP q w).map (fun r => r.objectClassName) = Except.ok ([] : Str) ∧
    (convertWhoisToRDAP q w).map (fun r => r.whoisParsed) = Except.ok ([] : GoMap) ∧
    (convertWhoisToRDAP q w).map (fun r => r.rdapConformance) =
      Except.ok ["rdap_level_0".data] ∧
    (convertWhoisToRDAP q w).map (fun r => r.notices) = Except.ok [tosNotice] ∧
    (convertWhoisToRDAP q w).map (fun r => r.rawWhois) = Except.ok w := by
  intro q w h1 h2 h3
  simp [convertWhoisToRDAP, h1, h2, h3, Except.map, emptyRDAPResponse]

/-- Witness for claim C10 at the unclassifiable input `!`. -/
theorem c10_unknown_kind_envelope_witness :
    (convertWhoisToRDAP "!".data "x: y".data).map (fun r => r.objectClassName) =
      Except.ok ([] : Str) ∧
    (convertWhoisToRDAP "!".data "x: y".data).map (fun r => r.whoisParsed) =
      Except.ok ([] : GoMap) ∧
    (convertWhoisToRDAP "!".data "x: y".data).map (fun r => r.rdapConformance) =
      Except.ok ["rdap_level_0".data] ∧
    (convertWhoisToRDAP "!".data "x: y".data).map (fun r => r.notices) =
      Except.ok [tosNotice] ∧
    (convertWhoisToRDAP "!".data "x: y".data).map (fun r => r.rawWhois) =
      Except.ok "x: y".data :=
  c10_unknown_kind_envelope "!".data "x: y".data (by decide) (by decide) (by decide)

end Whois
